import Mathlib

/-!
Shallow embedding of `src/bot.py` (boxlove): a Telegram bot driving a
three-state per-user session machine held in the in-process dictionary
`user_states : Dict[int, str]`.  Handlers are embedded as pure functions
from the state map and the incoming update to the updated map together
with the ordered trace of side-effecting actions the handler performs
(callback acknowledgement, state-map lookup, outbound messages).
-/

/-- `STATE_NEW = "new"` (bot.py line 33). -/
def STATE_NEW : String := "new"

/-- `STATE_DOOR_SHOWN = "door_shown"` (bot.py line 34). -/
def STATE_DOOR_SHOWN : String := "door_shown"

/-- `STATE_CLOSED = "closed"` (bot.py line 35). -/
def STATE_CLOSED : String := "closed"

/-- The in-memory store `user_states : Dict[int, str]` (bot.py line 31);
`d u = none` models absence of the key (`dict.get` returning `None`). -/
abbrev UserStates := Int → Option String

/-- Dictionary assignment `user_states[user_id] = v`. -/
def dictSet (d : UserStates) (k : Int) (v : String) : UserStates :=
  fun k2 => if k2 = k then some v else d k2

/-- The dictionary at process start: `user_states = {}`. -/
def emptyStates : UserStates := fun _ => none

/-- `telegram.InlineKeyboardButton(label, callback_data=...)`: we keep the
visible label and the callback payload. -/
structure InlineKeyboardButton where
  label : String
  callback_data : String
deriving DecidableEq

/-- An inline keyboard markup: rows of buttons, as passed to
`InlineKeyboardMarkup(keyboard)`. -/
abbrev Keyboard := List (List InlineKeyboardButton)

/-- The side effects a handler performs, in program order:
`answerCallback` is `query.answer()`, `readState u` is the
`user_states.get(user_id)` lookup, `replyText` is `reply_text`,
`editMessageText` is `edit_message_text`. -/
inductive BotAction where
  | answerCallback : BotAction
  | readState : Int → BotAction
  | replyText : String → Option Keyboard → BotAction
  | editMessageText : String → Option Keyboard → BotAction
deriving DecidableEq

/-- The lockout text sent once the door is closed (bot.py lines 55-58,
90-93, 116-119; identical in all three handlers). -/
def lockout_text : String :=
  "🚪 Дверь уже закрыта.\nПовтор открыть невозможен."

/-- The intro prompt sent by `start` (bot.py lines 68-73). -/
def intro_text : String :=
  "На сегодня у тебя есть одна дверь.\nОна откроется только один раз.\nЕсли откроешь — вернуться нельзя.\n\nГотова?"

/-- The single-button keyboard sent with the intro (bot.py lines 63-65). -/
def intro_keyboard : Keyboard :=
  [[⟨"Открыть дверь", "open_intro"⟩]]

/-- The ASCII door picture (bot.py lines 126-131). -/
def door_art : String :=
  "   ┌───────────┐\n   │     🚪     │\n   │           │\n   └───────────┘"

/-- The door message: `f"{door_art}\n\n..."` (bot.py lines 138-143). -/
def door_text : String :=
  door_art ++ "\n\n" ++ "Она откроется, только если ты действительно хочешь.\nЭто не игра и не квест.\nЭто момент."

/-- The single-button keyboard sent with the door (bot.py lines 133-135). -/
def door_keyboard : Keyboard :=
  [[⟨"Открыть", "open_door"⟩]]

/-- First message of the opening sequence (bot.py lines 153-158). -/
def empty_space_text : String :=
  "…Иногда за дверью ничего не бывает.\nПросто пространство.\nПауза.\nМгновение."

/-- Second (gift) message of the opening sequence (bot.py lines 162-168). -/
def gift_text : String :=
  "Но сегодня — не так.\n\nСегодня за дверью есть одно единственное сообщение:\nты правда заслуживаешь моменты, которые делают день теплее.\nИ я захотел подарить тебе один такой момент.\n\nСпасибо, что открыла."

/-- Third message of the opening sequence (bot.py line 171). -/
def closing_text : String :=
  "Дверь закрывается…"

/-- Fourth and final message of the opening sequence (bot.py lines 172-175). -/
def final_text : String :=
  "🚪 Закрыто.\nНадеюсь, твой день пройдет ярко!"

/-- `update.callback_query`: the pressing user (`query.from_user.id`) and
the button payload (`query.data`). -/
structure CallbackQuery where
  from_user : Int
  data : String
deriving DecidableEq

/-- The slice of `telegram.Update` the handlers read: whether
`update.message` is present, `update.effective_user.id`, and
`update.callback_query`. -/
structure Update where
  message : Option Unit
  effective_user : Int
  callback_query : Option CallbackQuery

/-- `start` (bot.py lines 42-75): if the stored state is `closed`, reply
with the lockout text; otherwise store `new` and send the intro prompt
with the `open_intro` button. -/
def start (states : UserStates) (update : Update) : UserStates × List BotAction :=
  match update.message with
  | none => (states, [])
  | some _ =>
    let user_id := update.effective_user
    let state := states user_id
    if state = some STATE_CLOSED then
      (states, [BotAction.readState user_id, BotAction.replyText lockout_text none])
    else
      (dictSet states user_id STATE_NEW,
       [BotAction.readState user_id,
        BotAction.replyText intro_text (some intro_keyboard)])

/-- `handle_message` (bot.py lines 78-97): any non-command text; lockout
if `closed`, otherwise re-invoke `start`. -/
def handle_message (states : UserStates) (update : Update) : UserStates × List BotAction :=
  match update.message with
  | none => (states, [])
  | some _ =>
    let user_id := update.effective_user
    let state := states user_id
    if state = some STATE_CLOSED then
      (states, [BotAction.readState user_id, BotAction.replyText lockout_text none])
    else
      let r := start states update
      (r.1, BotAction.readState user_id :: r.2)

/-- `on_callback_query` (bot.py lines 100-176): acknowledge the button,
look up the state, then dispatch on the payload exactly as the source:
first the `closed` guard, then the unguarded `open_intro` branch, then
the `open_door` branch guarded by `door_shown`, else fall through. -/
def on_callback_query (states : UserStates) (update : Update) : UserStates × List BotAction :=
  match update.callback_query with
  | none => (states, [])
  | some query =>
    let user_id := query.from_user
    let state := states user_id
    let data := query.data
    if state = some STATE_CLOSED then
      (states,
       [BotAction.answerCallback, BotAction.readState user_id,
        BotAction.editMessageText lockout_text none])
    else if data = "open_intro" then
      (dictSet states user_id STATE_DOOR_SHOWN,
       [BotAction.answerCallback, BotAction.readState user_id,
        BotAction.editMessageText door_text (some door_keyboard)])
    else if data = "open_door" ∧ state = some STATE_DOOR_SHOWN then
      (dictSet states user_id STATE_CLOSED,
       [BotAction.answerCallback, BotAction.readState user_id,
        BotAction.editMessageText empty_space_text none,
        BotAction.replyText gift_text none,
        BotAction.replyText closing_text none,
        BotAction.replyText final_text none])
    else
      (states, [BotAction.answerCallback, BotAction.readState user_id])

/-- The inbound events the dispatcher (bot.py lines 195-203) routes:
`/start` commands to `start`, plain text to `handle_message`, button
presses to `on_callback_query`. -/
inductive Event where
  | start_command : Int → Event
  | text_message : Int → Event
  | button_press : Int → String → Event
deriving DecidableEq

/-- The user identifier an event carries. -/
def Event.user : Event → Int
  | Event.start_command u => u
  | Event.text_message u => u
  | Event.button_press u _ => u

/-- The `Update` object the platform delivers for an event: commands and
texts carry a message; button presses carry a callback query from the
pressing user. -/
def Event.toUpdate : Event → Update
  | Event.start_command u => ⟨some (), u, none⟩
  | Event.text_message u => ⟨some (), u, none⟩
  | Event.button_press u p => ⟨none, u, some ⟨u, p⟩⟩

/-- One dispatch step: route the event to its handler. -/
def step (states : UserStates) (e : Event) : UserStates × List BotAction :=
  match e with
  | Event.start_command _ => start states e.toUpdate
  | Event.text_message _ => handle_message states e.toUpdate
  | Event.button_press _ _ => on_callback_query states e.toUpdate

/-- Run a sequence of events, threading the state map. -/
def run (states : UserStates) : List Event → UserStates
  | [] => states
  | e :: es => run (step states e).1 es

/-- Whether an action is an outbound message (a reply or an edit), as
opposed to the acknowledgement or the internal state lookup. -/
def BotAction.isMessage : BotAction → Bool
  | BotAction.replyText _ _ => true
  | BotAction.editMessageText _ _ => true
  | _ => false

/-- The outbound messages of a trace, in order. -/
def messages (tr : List BotAction) : List BotAction :=
  tr.filter BotAction.isMessage

/-- The text of a message action (empty for non-messages). -/
def BotAction.msgText : BotAction → String
  | BotAction.replyText t _ => t
  | BotAction.editMessageText t _ => t
  | _ => ""

/-- `main` (bot.py lines 183-192) up to and including application
construction: `os.getenv("BOT_TOKEN")` yields `none` when the variable is
absent; `if not bot_token` is true for `none` and for the empty string
and raises before `ApplicationBuilder().token(bot_token).build()` runs;
otherwise the application is built from the token. -/
structure Application where
  token : String
deriving DecidableEq

/-- The `RuntimeError` message raised for a missing token (bot.py 186-190). -/
def token_error_text : String :=
  "BOT_TOKEN не найден в .env файле.\nСоздай рядом с bot.py файл .env со строкой:\nBOT_TOKEN=твой_токен_от_BotFather"

/-- Startup: `Except.error` models the raised `RuntimeError`, produced
before any `Application` value exists; `Except.ok` models a built
application about to start polling. -/
def bot_main (bot_token : Option String) : Except String Application :=
  match bot_token with
  | none => Except.error token_error_text
  | some t =>
    if t = "" then Except.error token_error_text
    else Except.ok (Application.mk t)

/-! ### State maps used to instantiate theorems at concrete inputs -/

/-- A map storing `closed` for every user. -/
def allClosed : UserStates := fun _ => some STATE_CLOSED

/-- A map storing `door_shown` for every user. -/
def allDoorShown : UserStates := fun _ => some STATE_DOOR_SHOWN

/-- A map storing `new` for every user. -/
def allNew : UserStates := fun _ => some STATE_NEW

/-! ### Helper lemmas about the dictionary and single steps -/

theorem dictSet_self_eq (d : UserStates) (k : Int) (v : String) :
    dictSet d k v k = some v := by
  simp [dictSet]

theorem dictSet_other (d : UserStates) (k : Int) (v : String) (u : Int)
    (h : u ≠ k) : dictSet d k v u = d u := by
  simp [dictSet, h]

theorem dictSet_id (d : UserStates) (k : Int) (v : String) (h : d k = some v) :
    dictSet d k v = d := by
  funext u
  by_cases hu : u = k
  · subst hu; simp [dictSet, h]
  · simp [dictSet, hu]

theorem dictSet_lookup (d : UserStates) (k : Int) (c : String) (u : Int) (v : String)
    (h : dictSet d k c u = some v) : v = c ∨ d u = some v := by
  by_cases hu : u = k
  · subst hu
    rw [dictSet_self_eq] at h
    exact Or.inl (Option.some.inj h).symm
  · right
    rwa [dictSet_other _ _ _ _ hu] at h

theorem dictSet_isSome (d : UserStates) (k : Int) (c : String) (u : Int)
    (h : d u ≠ none) : dictSet d k c u ≠ none := by
  by_cases hu : u = k
  · subst hu; simp [dictSet_self_eq]
  · rwa [dictSet_other _ _ _ _ hu]

/-- An event only ever writes the map entry of its own user. -/
theorem step_other_user (states : UserStates) (e : Event) (u : Int)
    (h : u ≠ e.user) : (step states e).1 u = states u := by
  cases e with
  | start_command w =>
    have h' : u ≠ w := h
    simp only [step, start, Event.toUpdate]
    split_ifs <;> simp [dictSet, h']
  | text_message w =>
    have h' : u ≠ w := h
    simp only [step, handle_message, start, Event.toUpdate]
    split_ifs <;> simp [dictSet, h']
  | button_press w p =>
    have h' : u ≠ w := h
    simp only [step, on_callback_query, Event.toUpdate]
    split_ifs <;> simp [dictSet, h']

/-- A `closed` entry survives any single step. -/
theorem step_closed_fix (states : UserStates) (e : Event) (u : Int)
    (h : states u = some STATE_CLOSED) :
    (step states e).1 u = some STATE_CLOSED := by
  by_cases hu : u = e.user
  · cases e with
    | start_command w =>
      have hw : w = u := hu.symm
      subst hw
      simp [step, start, Event.toUpdate, h]
    | text_message w =>
      have hw : w = u := hu.symm
      subst hw
      simp [step, handle_message, Event.toUpdate, h]
    | button_press w p =>
      have hw : w = u := hu.symm
      subst hw
      simp [step, on_callback_query, Event.toUpdate, h]
  · rw [step_other_user states e u hu]
    exact h

/-- A `closed` entry survives any sequence of events. -/
theorem run_closed_fix (states : UserStates) (es : List Event) (u : Int)
    (h : states u = some STATE_CLOSED) :
    run states es u = some STATE_CLOSED := by
  induction es generalizing states with
  | nil => simpa [run] using h
  | cons e es ih =>
    simp only [run]
    exact ih _ (step_closed_fix states e u h)

/-- Any value a single step stores is one of the three state strings
(or was already there). -/
theorem step_stored (states : UserStates) (e : Event) (u : Int) (v : String)
    (h : (step states e).1 u = some v) :
    states u = some v ∨ v = STATE_NEW ∨ v = STATE_DOOR_SHOWN ∨ v = STATE_CLOSED := by
  cases e with
  | start_command w =>
    revert h
    simp only [step, start, Event.toUpdate]
    split_ifs
    · exact fun h => Or.inl h
    · intro h
      rcases dictSet_lookup _ _ _ _ _ h with h1 | h1
      · exact Or.inr (Or.inl h1)
      · exact Or.inl h1
  | text_message w =>
    revert h
    simp only [step, handle_message, start, Event.toUpdate]
    split_ifs
    · exact fun h => Or.inl h
    · intro h
      rcases dictSet_lookup _ _ _ _ _ h with h1 | h1
      · exact Or.inr (Or.inl h1)
      · exact Or.inl h1
  | button_press w p =>
    revert h
    simp only [step, on_callback_query, Event.toUpdate]
    split_ifs
    · exact fun h => Or.inl h
    · intro h
      rcases dictSet_lookup _ _ _ _ _ h with h1 | h1
      · exact Or.inr (Or.inr (Or.inl h1))
      · exact Or.inl h1
    · intro h
      rcases dictSet_lookup _ _ _ _ _ h with h1 | h1
      · exact Or.inr (Or.inr (Or.inr h1))
      · exact Or.inl h1
    · exact fun h => Or.inl h

/-- No step ever deletes a map entry. -/
theorem step_no_delete (states : UserStates) (e : Event) (u : Int)
    (h : states u ≠ none) : (step states e).1 u ≠ none := by
  cases e with
  | start_command w =>
    simp only [step, start, Event.toUpdate]
    split_ifs
    · exact h
    · exact dictSet_isSome _ _ _ _ h
  | text_message w =>
    simp only [step, handle_message, start, Event.toUpdate]
    split_ifs
    · exact h
    · exact dictSet_isSome _ _ _ _ h
  | button_press w p =>
    simp only [step, on_callback_query, Event.toUpdate]
    split_ifs
    · exact h
    · exact dictSet_isSome _ _ _ _ h
    · exact dictSet_isSome _ _ _ _ h
    · exact h

/-- Every stored value of the map is one of the three state strings. -/
def ValidStates (states : UserStates) : Prop :=
  ∀ u v, states u = some v →
    v = STATE_NEW ∨ v = STATE_DOOR_SHOWN ∨ v = STATE_CLOSED

theorem step_valid (states : UserStates) (e : Event) (h : ValidStates states) :
    ValidStates (step states e).1 := by
  intro u v hv
  rcases step_stored states e u v hv with h1 | h1
  · exact h u v h1
  · exact h1

theorem run_valid (states : UserStates) (es : List Event) (h : ValidStates states) :
    ValidStates (run states es) := by
  induction es generalizing states with
  | nil => simpa [run] using h
  | cons e es ih => exact ih _ (step_valid states e h)

theorem emptyStates_valid : ValidStates emptyStates := by
  intro u v hv
  simp [emptyStates] at hv

/-! ### Claim theorems -/

/-- Claim C1: once a user's stored state is `closed`, every subsequent
event (start command, free-text message, or any button press) leaves the
state map unchanged (hence still `closed`) and its only outbound message
is the fixed lockout text; moreover no sequence of events can move a
`closed` session to any other state. -/
theorem closed_is_terminal :
    (∀ (states : UserStates) (u : Int) (e : Event),
        states u = some STATE_CLOSED → e.user = u →
        (step states e).1 = states ∧
        (messages (step states e).2).map BotAction.msgText = [lockout_text])
    ∧ (∀ (states : UserStates) (u : Int) (es : List Event),
        states u = some STATE_CLOSED → run states es u = some STATE_CLOSED) := by
  constructor
  · intro states u e h hu
    cases e with
    | start_command w =>
      have hw : w = u := hu
      subst hw
      simp [step, start, Event.toUpdate, h, messages, BotAction.isMessage,
        BotAction.msgText]
    | text_message w =>
      have hw : w = u := hu
      subst hw
      simp [step, handle_message, Event.toUpdate, h, messages,
        BotAction.isMessage, BotAction.msgText]
    | button_press w p =>
      have hw : w = u := hu
      subst hw
      simp [step, on_callback_query, Event.toUpdate, h, messages,
        BotAction.isMessage, BotAction.msgText]
  · exact fun states u es h => run_closed_fix states es u h

/-- Witness for C1 at the concrete map storing `closed` for everyone,
user 42, a start command, and a two-event sequence. -/
theorem closed_is_terminal_witness :
    ((step allClosed (Event.start_command 42)).1 = allClosed ∧
      (messages (step allClosed (Event.start_command 42)).2).map
        BotAction.msgText = [lockout_text]) ∧
    run allClosed [Event.button_press 42 "open_intro", Event.text_message 42]
      42 = some STATE_CLOSED :=
  ⟨closed_is_terminal.1 allClosed 42 (Event.start_command 42) rfl rfl,
   closed_is_terminal.2 allClosed 42
     [Event.button_press 42 "open_intro", Event.text_message 42] rfl⟩

/-- Claim C4: from `door_shown`, pressing the `open_door` button stores
`closed` and produces exactly four messages, in order: the empty-space
text, the gift text, the closing text, and the final confirmation. -/
theorem open_door_four_messages (states : UserStates) (u : Int)
    (h : states u = some STATE_DOOR_SHOWN) :
    (step states (Event.button_press u "open_door")).1 u = some STATE_CLOSED ∧
    messages (step states (Event.button_press u "open_door")).2 =
      [BotAction.editMessageText empty_space_text none,
       BotAction.replyText gift_text none,
       BotAction.replyText closing_text none,
       BotAction.replyText final_text none] := by
  simp [step, Event.toUpdate, on_callback_query, h, STATE_DOOR_SHOWN,
    STATE_CLOSED, messages, BotAction.isMessage, dictSet]

/-- Witness for C4 at the concrete map storing `door_shown` for everyone
and user 42. -/
theorem open_door_four_messages_witness :
    (step allDoorShown (Event.button_press 42 "open_door")).1 42 =
      some STATE_CLOSED ∧
    messages (step allDoorShown (Event.button_press 42 "open_door")).2 =
      [BotAction.editMessageText empty_space_text none,
       BotAction.replyText gift_text none,
       BotAction.replyText closing_text none,
       BotAction.replyText final_text none] :=
  open_door_four_messages allDoorShown 42 rfl

/-- Claim C5: from `new` or from an absent entry, pressing the
`open_door` button is a no-op: the state map is unchanged and no message
is sent. -/
theorem open_door_ignored_outside_door_shown (states : UserStates) (u : Int)
    (h : states u = some STATE_NEW ∨ states u = none) :
    (step states (Event.button_press u "open_door")).1 = states ∧
    messages (step states (Event.button_press u "open_door")).2 = [] := by
  rcases h with h | h <;>
    simp [step, Event.toUpdate, on_callback_query, h, STATE_NEW,
      STATE_DOOR_SHOWN, STATE_CLOSED, messages, BotAction.isMessage]

/-- Witness for C5 at the empty map and user 7. -/
theorem open_door_ignored_outside_door_shown_witness :
    (step emptyStates (Event.button_press 7 "open_door")).1 = emptyStates ∧
    messages (step emptyStates (Event.button_press 7 "open_door")).2 = [] :=
  open_door_ignored_outside_door_shown emptyStates 7 (Or.inr rfl)

/-- Claim C6: from `new` or from an absent entry, pressing the
`open_intro` button stores `door_shown` and outputs the door visual with
a single-button keyboard whose payload is `open_door`. -/
theorem open_intro_shows_door (states : UserStates) (u : Int)
    (h : states u = some STATE_NEW ∨ states u = none) :
    (step states (Event.button_press u "open_intro")).1 u =
      some STATE_DOOR_SHOWN ∧
    messages (step states (Event.button_press u "open_intro")).2 =
      [BotAction.editMessageText door_text (some door_keyboard)] ∧
    door_keyboard.map (fun row => row.map InlineKeyboardButton.callback_data) =
      [["open_door"]] := by
  rcases h with h | h <;>
    simp [step, Event.toUpdate, on_callback_query, h, STATE_NEW,
      STATE_DOOR_SHOWN, STATE_CLOSED, messages, BotAction.isMessage,
      dictSet, door_keyboard]

/-- Witness for C6 at the map storing `new` for everyone and user 42. -/
theorem open_intro_shows_door_witness :
    (step allNew (Event.button_press 42 "open_intro")).1 42 =
      some STATE_DOOR_SHOWN ∧
    messages (step allNew (Event.button_press 42 "open_intro")).2 =
      [BotAction.editMessageText door_text (some door_keyboard)] ∧
    door_keyboard.map (fun row => row.map InlineKeyboardButton.callback_data) =
      [["open_door"]] :=
  open_intro_shows_door allNew 42 (Or.inl rfl)

/-- Claim C7: from `door_shown`, a free-text message re-invokes the
start flow: the stored state is reset to `new` and the intro prompt is
sent again, rather than `door_shown` being preserved. -/
theorem text_resets_door_shown (states : UserStates) (u : Int)
    (h : states u = some STATE_DOOR_SHOWN) :
    step states (Event.text_message u) =
      ((start states (Event.text_message u).toUpdate).1,
        BotAction.readState u ::
          (start states (Event.text_message u).toUpdate).2) ∧
    (step states (Event.text_message u)).1 u = some STATE_NEW ∧
    messages (step states (Event.text_message u)).2 =
      [BotAction.replyText intro_text (some intro_keyboard)] := by
  refine ⟨?_, ?_, ?_⟩ <;>
    simp [step, handle_message, start, Event.toUpdate, h, STATE_NEW,
      STATE_DOOR_SHOWN, STATE_CLOSED, messages, BotAction.isMessage, dictSet]

/-- Witness for C7 at the map storing `door_shown` for everyone and
user 42. -/
theorem text_resets_door_shown_witness :
    step allDoorShown (Event.text_message 42) =
      ((start allDoorShown (Event.text_message 42).toUpdate).1,
        BotAction.readState 42 ::
          (start allDoorShown (Event.text_message 42).toUpdate).2) ∧
    (step allDoorShown (Event.text_message 42)).1 42 = some STATE_NEW ∧
    messages (step allDoorShown (Event.text_message 42)).2 =
      [BotAction.replyText intro_text (some intro_keyboard)] :=
  text_resets_door_shown allDoorShown 42 rfl

/-- Counterexample to C2 as stated: in `door_shown`, the payload
`open_intro` is not `open_door`, yet the press is not silent — it
re-sends the door visual, because the `open_intro` branch carries no
state guard (bot.py line 123). -/
theorem door_shown_open_intro_not_silent :
    allDoorShown 1 = some STATE_DOOR_SHOWN ∧
    "open_intro" ≠ "open_door" ∧
    messages (step allDoorShown (Event.button_press 1 "open_intro")).2 =
      [BotAction.editMessageText door_text (some door_keyboard)] ∧
    messages (step allDoorShown (Event.button_press 1 "open_intro")).2 ≠ [] := by
  refine ⟨rfl, by decide, ?_, ?_⟩ <;> decide

/-- Claim C2 (amended): in `door_shown`, payload `open_door` advances the
state to `closed`; payload `open_intro` leaves the map unchanged but
re-outputs the door visual; every payload other than `open_door` and
`open_intro` leaves the map unchanged and produces no output. -/
theorem door_shown_payload_dispatch (states : UserStates) (u : Int)
    (h : states u = some STATE_DOOR_SHOWN) :
    (step states (Event.button_press u "open_door")).1 u = some STATE_CLOSED ∧
    ((step states (Event.button_press u "open_intro")).1 = states ∧
      messages (step states (Event.button_press u "open_intro")).2 =
        [BotAction.editMessageText door_text (some door_keyboard)]) ∧
    (∀ p : String, p ≠ "open_door" → p ≠ "open_intro" →
      (step states (Event.button_press u p)).1 = states ∧
      messages (step states (Event.button_press u p)).2 = []) := by
  refine ⟨?_, ⟨?_, ?_⟩, ?_⟩
  · simp [step, Event.toUpdate, on_callback_query, h, STATE_DOOR_SHOWN,
      STATE_CLOSED, dictSet]
  · have h2 := dictSet_id states u STATE_DOOR_SHOWN h
    simp only [STATE_DOOR_SHOWN] at h2
    simp [step, Event.toUpdate, on_callback_query, h, STATE_DOOR_SHOWN,
      STATE_CLOSED, h2]
  · simp [step, Event.toUpdate, on_callback_query, h, STATE_DOOR_SHOWN,
      STATE_CLOSED, messages, BotAction.isMessage]
  · intro p hp1 hp2
    simp [step, Event.toUpdate, on_callback_query, h, STATE_DOOR_SHOWN,
      STATE_CLOSED, messages, BotAction.isMessage, hp1, hp2]

/-- Witness for amended C2 at the map storing `door_shown` for everyone,
user 1, and the unknown payload "x". -/
theorem door_shown_payload_dispatch_witness :
    (step allDoorShown (Event.button_press 1 "open_door")).1 1 =
      some STATE_CLOSED ∧
    (step allDoorShown (Event.button_press 1 "x")).1 = allDoorShown ∧
    messages (step allDoorShown (Event.button_press 1 "x")).2 = [] :=
  ⟨(door_shown_payload_dispatch allDoorShown 1 rfl).1,
   (door_shown_payload_dispatch allDoorShown 1 rfl).2.2 "x"
     (by decide) (by decide)⟩

/-- Counterexample to C3 as stated: user 7 was never seen, and their
first event is a button press with payload `open_door`; the handler
falls through, so no state is stored (in particular not `new`) and no
intro output is produced. -/
theorem unseen_button_press_not_new :
    emptyStates 7 = none ∧
    (step emptyStates (Event.button_press 7 "open_door")).1 7 ≠
      some STATE_NEW ∧
    messages (step emptyStates (Event.button_press 7 "open_door")).2 = [] := by
  refine ⟨rfl, ?_, ?_⟩ <;> decide

/-- Claim C3 (amended): for a user with no stored state, the first start
command or free-text message (though not a button press) stores `new`
and sends the intro prompt with the `open_intro` button. -/
theorem unseen_first_text_yields_new (states : UserStates) (u : Int)
    (h : states u = none) :
    ((step states (Event.start_command u)).1 u = some STATE_NEW ∧
      messages (step states (Event.start_command u)).2 =
        [BotAction.replyText intro_text (some intro_keyboard)]) ∧
    ((step states (Event.text_message u)).1 u = some STATE_NEW ∧
      messages (step states (Event.text_message u)).2 =
        [BotAction.replyText intro_text (some intro_keyboard)]) := by
  refine ⟨⟨?_, ?_⟩, ⟨?_, ?_⟩⟩ <;>
    simp [step, start, handle_message, Event.toUpdate, h, STATE_NEW,
      STATE_CLOSED, messages, BotAction.isMessage, dictSet]

/-- Witness for amended C3 at the empty map and user 9. -/
theorem unseen_first_text_yields_new_witness :
    ((step emptyStates (Event.start_command 9)).1 9 = some STATE_NEW ∧
      messages (step emptyStates (Event.start_command 9)).2 =
        [BotAction.replyText intro_text (some intro_keyboard)]) ∧
    ((step emptyStates (Event.text_message 9)).1 9 = some STATE_NEW ∧
      messages (step emptyStates (Event.text_message 9)).2 =
        [BotAction.replyText intro_text (some intro_keyboard)]) :=
  unseen_first_text_yields_new emptyStates 9 rfl

/-- Claim C8: with the BOT_TOKEN credential absent or empty, startup
raises (an error is returned and no application is ever built); with a
non-empty credential, startup does not raise and the application is
built from the token. -/
theorem missing_token_aborts_startup :
    bot_main none = Except.error token_error_text ∧
    bot_main (some "") = Except.error token_error_text ∧
    ∀ t : String, t ≠ "" → bot_main (some t) = Except.ok (Application.mk t) := by
  refine ⟨rfl, rfl, ?_⟩
  intro t ht
  simp [bot_main, ht]

/-- Witness for C8 at a concrete non-empty token. -/
theorem missing_token_aborts_startup_witness :
    bot_main (some "123:ABC") = Except.ok (Application.mk "123:ABC") :=
  missing_token_aborts_startup.2.2 "123:ABC" (by decide)

/-- Claim C9: along any event sequence from process start, every value
held in `user_states` is one of the strings "new", "door_shown",
"closed"; and no handler step ever removes an existing entry. -/
theorem user_states_values_invariant :
    (∀ (es : List Event) (u : Int) (v : String),
        run emptyStates es u = some v →
        v = STATE_NEW ∨ v = STATE_DOOR_SHOWN ∨ v = STATE_CLOSED)
    ∧ (∀ (states : UserStates) (e : Event) (u : Int),
        states u ≠ none → (step states e).1 u ≠ none) :=
  ⟨fun es u v h => run_valid emptyStates es emptyStates_valid u v h,
   fun states e u h => step_no_delete states e u h⟩

/-- Witness for C9: a start command stores a value among the three
strings, and a step on an existing entry keeps it present. -/
theorem user_states_values_invariant_witness :
    (STATE_NEW = STATE_NEW ∨ STATE_NEW = STATE_DOOR_SHOWN ∨
      STATE_NEW = STATE_CLOSED) ∧
    (step allNew (Event.button_press 1 "open_intro")).1 1 ≠ none :=
  ⟨user_states_values_invariant.1 [Event.start_command 3] 3 STATE_NEW
     (by decide),
   user_states_values_invariant.2 allNew (Event.button_press 1 "open_intro") 1
     (by decide)⟩

/-- Claim C10: every button press, for every payload and every state of
the pressing user, is acknowledged exactly once, as the very first
action of the handler and in particular before the state lookup (which
is the second action); the rest of the trace contains no further
acknowledgement and no further state lookup. -/
theorem button_press_acknowledged_first (states : UserStates) (u : Int)
    (p : String) :
    ∃ rest : List BotAction,
      (step states (Event.button_press u p)).2 =
        BotAction.answerCallback :: BotAction.readState u :: rest ∧
      BotAction.answerCallback ∉ rest ∧
      ∀ w : Int, BotAction.readState w ∉ rest := by
  simp only [step, Event.toUpdate, on_callback_query]
  split_ifs
  · exact ⟨[BotAction.editMessageText lockout_text none], rfl, by simp,
      by simp⟩
  · exact ⟨[BotAction.editMessageText door_text (some door_keyboard)], rfl,
      by simp, by simp⟩
  · exact ⟨[BotAction.editMessageText empty_space_text none,
      BotAction.replyText gift_text none,
      BotAction.replyText closing_text none,
      BotAction.replyText final_text none], rfl, by simp, by simp⟩
  · exact ⟨[], rfl, by simp, by simp⟩
